import Mathlib

/-!
Shallow embedding of the core of `src/script.py` (classes `SimulatedSensor`
and `VirtualCarSimulator`) over the rationals.  Python floats are modelled
as `ℚ`; Python `round(v, 2)` (banker's rounding, round-half-to-even) is
modelled by `round2`; `np.clip(x, lo, hi)` is `clipQ`.  The gear-ratio list
lookup `gear_ratios[self.gear]` raises a `TypeError` in Python whenever the
stored gear is not an integer (`np.clip` of a float produces a float, which
cannot index a list); this fallibility is modelled by `gearLookup` returning
`Option ℚ`, and the update pass `updateSensors` consequently returns
`Option VirtualCarSimulator`.  An integral rational models a Python `int`.
-/

/-- Model of `np.clip(x, lo, hi)` = `min(max(x, lo), hi)`. -/
def clipQ (x lo hi : ℚ) : ℚ := min (max x lo) hi

/-- Python's `round` to an integer: round half to even (banker's rounding).
At a tie (fractional part exactly 1/2) the result is the nearest even
integer, which equals `2 * round (x / 2)`; away from ties it is ordinary
nearest-integer rounding. -/
def pyRound (x : ℚ) : ℤ := if Int.fract x = 1/2 then 2 * round (x/2) else round x

/-- Python's `round(x, 2)`: round to 2 decimal places, half to even. -/
def round2 (x : ℚ) : ℚ := (pyRound (100 * x) : ℚ) / 100

/-- Exactness predicate: `x` is representable with 2 decimal places (so `round2` fixes it). -/
def IsCenti (x : ℚ) : Prop := (100 * x).den = 1

instance (x : ℚ) : Decidable (IsCenti x) := by unfold IsCenti; infer_instance

/-- Dataclass `SimulatedSensor` of `script.py` (lines 8-14). -/
structure SimulatedSensor where
  name : String
  value : ℚ
  min_value : ℚ
  max_value : ℚ
  noise_level : ℚ
deriving DecidableEq

/-- The fixed unit table of `SimulatedSensor.get_unit` (lines 26-39):
`units.get(self.name, '')`. -/
def getUnit (name : String) : String :=
  if name = "RPM" then "rpm"
  else if name = "SPEED" then "km/h"
  else if name = "COOLANT_TEMP" then "°C"
  else if name = "ENGINE_LOAD" then "%"
  else if name = "THROTTLE_POS" then "%"
  else if name = "INTAKE_TEMP" then "°C"
  else if name = "MAF" then "g/s"
  else if name = "FUEL_RATE" then "L/h"
  else if name = "OIL_TEMP" then "°C"
  else if name = "OIL_PRESSURE" then "psi"
  else ""

/-- The value object returned by `SimulatedSensor.read` (lines 16-24).
The wall-clock `timestamp` field is outside the embedding. -/
structure Reading where
  command : String
  value : ℚ
  unit : String
deriving DecidableEq

/-- Method `SimulatedSensor.read` (lines 16-24), with the random draw
`random.uniform(-noise_level, noise_level)` passed in as the argument
`noise`: clip the perturbed value to the bounds, round to 2 decimals. -/
def SimulatedSensor.read (s : SimulatedSensor) (noise : ℚ) : Reading :=
  { command := s.name
    value := round2 (clipQ (s.value + noise) s.min_value s.max_value)
    unit := getUnit s.name }

/-- Wrapper for `read` with explicit state passing: the method body of `read` contains
no assignment to `self`, so the post-state is the receiver unchanged. -/
def SimulatedSensor.readS (s : SimulatedSensor) (noise : ℚ) :
    SimulatedSensor × Reading :=
  (s, s.read noise)

/-- State of `VirtualCarSimulator` (lines 41-57): the fixed ten-key sensor
dict is a structure with one field per channel, plus throttle, gear,
mileage.  `gear` is `ℚ` because Python stores whatever `np.clip` returns
(a float for float input); an integral value models a Python `int`. -/
structure VirtualCarSimulator where
  rpm : SimulatedSensor
  speed : SimulatedSensor
  coolant_temp : SimulatedSensor
  engine_load : SimulatedSensor
  throttle_pos : SimulatedSensor
  intake_temp : SimulatedSensor
  maf : SimulatedSensor
  fuel_rate : SimulatedSensor
  oil_temp : SimulatedSensor
  oil_pressure : SimulatedSensor
  throttle : ℚ
  gear : ℚ
  mileage : ℚ
deriving DecidableEq

/-- Constructor `VirtualCarSimulator.__init__` (lines 42-57). -/
def initState : VirtualCarSimulator where
  rpm := ⟨"RPM", 800, 0, 7000, 50⟩
  speed := ⟨"SPEED", 0, 0, 200, 2⟩
  coolant_temp := ⟨"COOLANT_TEMP", 85, 60, 120, 1⟩
  engine_load := ⟨"ENGINE_LOAD", 20, 0, 100, 2⟩
  throttle_pos := ⟨"THROTTLE_POS", 15, 0, 100, 1⟩
  intake_temp := ⟨"INTAKE_TEMP", 25, 20, 80, 1/2⟩
  maf := ⟨"MAF", 5, 0, 200, 1/2⟩
  fuel_rate := ⟨"FUEL_RATE", 4/5, 0, 20, 1/10⟩
  oil_temp := ⟨"OIL_TEMP", 80, 60, 120, 1⟩
  oil_pressure := ⟨"OIL_PRESSURE", 40, 15, 80, 2⟩
  throttle := 0
  gear := 3
  mileage := 45230

/-- The list `gear_ratios = [0, 3.5, 2.5, 1.8, 1.3, 1.0, 0.8]` (line 67). -/
def gearRatios : List ℚ := [0, 7/2, 5/2, 9/5, 13/10, 1, 4/5]

/-- The lookup `gear_ratios[self.gear]` (line 68).  In Python a list index must be an
`int`: a non-integral stored gear raises `TypeError`, modelled as `none`.
(Python would also accept negative integer indices, but the stored gear is
always the result of `np.clip(_, 1, 6)`, so that case is unreachable.) -/
def gearLookup (g : ℚ) : Option ℚ :=
  if g.den = 1 ∧ 0 ≤ g.num then gearRatios.get? g.num.toNat else none

/-- The body of `VirtualCarSimulator._update_sensors` (lines 64-82) once
the gear-ratio lookup has produced `ratio`: the new values of the eight
mutated fields, in source order.  The three channels THROTTLE_POS,
INTAKE_TEMP and MAF are never written by the pass. -/
def updateWith (s : VirtualCarSimulator) (ratio : ℚ) : VirtualCarSimulator :=
  let target_rpm := 800 + s.throttle * 50
  let rpmV := s.rpm.value + (target_rpm - s.rpm.value) * (1/10)
  let speedV := rpmV * ratio / 60
    let engine_loadV := s.throttle * (7/10)
    let heat_gen := (rpmV / 1000) * (2/10) + s.throttle * (5/100)
    let cooling := (s.coolant_temp.value - 85) * (1/10)
    let coolantV := s.coolant_temp.value + heat_gen - cooling
    let temp_diff := coolantV - s.oil_temp.value
    let oil_tempV := s.oil_temp.value + temp_diff * (5/100)
    let base_pressure := (rpmV / 1000) * 8 + 20
    let temp_factor := 1 - (oil_tempV - 80) / 200
    let oil_pressureV := base_pressure * clipQ temp_factor (1/2) (3/2)
    let fuelV := (s.throttle / 100) * 12 + (rpmV / 1000) * (8/10)
    let mileageV := if 0 < speedV then s.mileage + speedV / 3600 else s.mileage
    { s with
      rpm := { s.rpm with value := rpmV }
      speed := { s.speed with value := speedV }
      engine_load := { s.engine_load with value := engine_loadV }
      coolant_temp := { s.coolant_temp with value := coolantV }
      oil_temp := { s.oil_temp with value := oil_tempV }
      oil_pressure := { s.oil_pressure with value := oil_pressureV }
      fuel_rate := { s.fuel_rate with value := fuelV }
      mileage := mileageV }

/-- Method `VirtualCarSimulator._update_sensors` (lines 64-82), the recomputation
pass.  `none` models the `TypeError` raised at the gear-ratio lookup for a
non-integral stored gear (in that error case Python has already written the
new RPM value of line 66 before line 68 raises; no claim observes that
partial state, so the error case carries no state here). -/
def updateSensors (s : VirtualCarSimulator) : Option VirtualCarSimulator :=
  match gearLookup s.gear with
  | none => none
  | some ratio => some (updateWith s ratio)

/-- The assignment `self.throttle = np.clip(throttle, 0, 100)` (line 59). -/
def setThrottleState (t : ℚ) (s : VirtualCarSimulator) : VirtualCarSimulator :=
  { s with throttle := clipQ t 0 100 }

/-- Method `VirtualCarSimulator.set_throttle` (lines 58-60). -/
def set_throttle (t : ℚ) (s : VirtualCarSimulator) : Option VirtualCarSimulator :=
  updateSensors (setThrottleState t s)

/-- The assignment `self.gear = np.clip(gear, 1, 6)` (line 62).  This
assignment completes before `_update_sensors` runs, so the stored gear is
this clamped value even when the subsequent update raises. -/
def setGearState (g : ℚ) (s : VirtualCarSimulator) : VirtualCarSimulator :=
  { s with gear := clipQ g 1 6 }

/-- Method `VirtualCarSimulator.set_gear` (lines 61-63). -/
def set_gear (g : ℚ) (s : VirtualCarSimulator) : Option VirtualCarSimulator :=
  updateSensors (setGearState g s)

/-- One external control-input call (one tick). -/
inductive Cmd where
  | throttle (t : ℚ)
  | gear (g : ℚ)
deriving DecidableEq

/-- Apply one tick. -/
def applyCmd : Cmd → VirtualCarSimulator → Option VirtualCarSimulator
  | Cmd.throttle t, s => set_throttle t s
  | Cmd.gear g, s => set_gear g s

/-- Apply a sequence of ticks; `none` as soon as one call raises. -/
def applySeq : List Cmd → VirtualCarSimulator → Option VirtualCarSimulator
  | [], s => some s
  | c :: cs, s => (applyCmd c s).bind (applySeq cs)

/-- Method `VirtualCarSimulator.read_all_sensors` (lines 83-84) with explicit
state passing; `ν` gives each channel's independent noise draw.  The dict
comprehension only calls `read` on every sensor, so the post-state is the
model unchanged. -/
def read_all_sensors (s : VirtualCarSimulator) (ν : String → ℚ) :
    VirtualCarSimulator × List (String × Reading) :=
  (s, [ ("RPM", s.rpm.read (ν "RPM"))
      , ("SPEED", s.speed.read (ν "SPEED"))
      , ("COOLANT_TEMP", s.coolant_temp.read (ν "COOLANT_TEMP"))
      , ("ENGINE_LOAD", s.engine_load.read (ν "ENGINE_LOAD"))
      , ("THROTTLE_POS", s.throttle_pos.read (ν "THROTTLE_POS"))
      , ("INTAKE_TEMP", s.intake_temp.read (ν "INTAKE_TEMP"))
      , ("MAF", s.maf.read (ν "MAF"))
      , ("FUEL_RATE", s.fuel_rate.read (ν "FUEL_RATE"))
      , ("OIL_TEMP", s.oil_temp.read (ν "OIL_TEMP"))
      , ("OIL_PRESSURE", s.oil_pressure.read (ν "OIL_PRESSURE")) ])

/-- One sensor's stored (pre-noise) true value is within its bounds. -/
def sensorInBounds (s : SimulatedSensor) : Prop :=
  s.min_value ≤ s.value ∧ s.value ≤ s.max_value

instance (s : SimulatedSensor) : Decidable (sensorInBounds s) := by
  unfold sensorInBounds; infer_instance

/-- All ten channels' stored true values are within their bounds. -/
def allInBounds (s : VirtualCarSimulator) : Prop :=
  sensorInBounds s.rpm ∧ sensorInBounds s.speed ∧
  sensorInBounds s.coolant_temp ∧ sensorInBounds s.engine_load ∧
  sensorInBounds s.throttle_pos ∧ sensorInBounds s.intake_temp ∧
  sensorInBounds s.maf ∧ sensorInBounds s.fuel_rate ∧
  sensorInBounds s.oil_temp ∧ sensorInBounds s.oil_pressure

instance (s : VirtualCarSimulator) : Decidable (allInBounds s) := by
  unfold allInBounds; infer_instance

/-- The stored gear is a Python `int` in the valid range 1..6 (true in every
state reachable through `set_gear` with integer argument). -/
def validGear (s : VirtualCarSimulator) : Prop :=
  s.gear.den = 1 ∧ 1 ≤ s.gear ∧ s.gear ≤ 6

instance (s : VirtualCarSimulator) : Decidable (validGear s) := by
  unfold validGear; infer_instance

/-- The projection of model state named by claim C7: all ten channel true
values, throttle, gear, mileage. -/
structure CoreProj where
  rpmV : ℚ
  speedV : ℚ
  coolantV : ℚ
  loadV : ℚ
  throttlePosV : ℚ
  intakeV : ℚ
  mafV : ℚ
  fuelV : ℚ
  oilTempV : ℚ
  oilPressureV : ℚ
  thr : ℚ
  gr : ℚ
  mil : ℚ
deriving DecidableEq

/-- Read the C7 projection off a state. -/
def proj (s : VirtualCarSimulator) : CoreProj :=
  ⟨s.rpm.value, s.speed.value, s.coolant_temp.value, s.engine_load.value,
   s.throttle_pos.value, s.intake_temp.value, s.maf.value, s.fuel_rate.value,
   s.oil_temp.value, s.oil_pressure.value, s.throttle, s.gear, s.mileage⟩

/-- The exact state reached from the fresh model by the single call
`set_throttle(50)` (all values exact rationals). -/
def postThrottle50 : VirtualCarSimulator where
  rpm := ⟨"RPM", 1050, 0, 7000, 50⟩
  speed := ⟨"SPEED", 63/2, 0, 200, 2⟩
  coolant_temp := ⟨"COOLANT_TEMP", 8771/100, 60, 120, 1⟩
  engine_load := ⟨"ENGINE_LOAD", 35, 0, 100, 2⟩
  throttle_pos := ⟨"THROTTLE_POS", 15, 0, 100, 1⟩
  intake_temp := ⟨"INTAKE_TEMP", 25, 20, 80, 1/2⟩
  maf := ⟨"MAF", 5, 0, 200, 1/2⟩
  fuel_rate := ⟨"FUEL_RATE", 171/25, 0, 20, 1/10⟩
  oil_temp := ⟨"OIL_TEMP", 160771/2000, 60, 120, 1⟩
  oil_pressure := ⟨"OIL_PRESSURE", 28345259/1000000, 15, 80, 2⟩
  throttle := 50
  gear := 3
  mileage := 36184007/800

/-- An in-bounds model state (reachable from the fresh model: drive the RPM
up with full throttle, then shift down): RPM true value 4000, gear 1,
everything else as freshly constructed. -/
def c1state : VirtualCarSimulator :=
  { initState with rpm := ⟨"RPM", 4000, 0, 7000, 50⟩, gear := 1 }

/-- A state that differs from the fresh model only in a field outside the
C7 projection (the SPEED channel's noise amplitude). -/
def c7mate : VirtualCarSimulator :=
  { initState with speed := ⟨"SPEED", 0, 0, 200, 3⟩ }

/-- Iteration of `n` successive calls of `set_throttle(0)`. -/
def iterT0 : ℕ → VirtualCarSimulator → Option VirtualCarSimulator
  | 0, s => some s
  | n+1, s => (iterT0 n s).bind (set_throttle 0)

/-- The inductive invariant behind claim C10: RPM true value in [800, 5800],
throttle in [0, 100], speed true value non-negative. -/
def InvC10 (s : VirtualCarSimulator) : Prop :=
  800 ≤ s.rpm.value ∧ s.rpm.value ≤ 5800 ∧
    0 ≤ s.throttle ∧ s.throttle ≤ 100 ∧ 0 ≤ s.speed.value

theorem clipQ_le_right (x lo hi : ℚ) : clipQ x lo hi ≤ hi := min_le_right _ _

theorem le_clipQ (x lo hi : ℚ) (h : lo ≤ hi) : lo ≤ clipQ x lo hi :=
  le_min (le_max_right _ _) h

theorem set_throttle50_initState : set_throttle 50 initState = some postThrottle50 := by
  simp only [set_throttle, setThrottleState, updateSensors, gearLookup, gearRatios, initState]
  norm_num
  simp [updateWith, postThrottle50, clipQ]
  norm_num

theorem gearRatios_get?_nonneg (k : ℕ) (r : ℚ) (h : gearRatios.get? k = some r) :
    0 ≤ r := by
  rcases k with _ | _ | _ | _ | _ | _ | _ | k <;>
    simp [gearRatios, List.get?] at h <;> subst h <;> norm_num

theorem gearLookup_of_validGear (g : ℚ) (hden : g.den = 1) (h1 : 1 ≤ g) (h6 : g ≤ 6) :
    ∃ r, gearLookup g = some r ∧ 0 ≤ r := by
  have hg : (g.num : ℚ) = g := (Rat.den_eq_one_iff g).mp hden
  have h1n : 1 ≤ g.num := by rw [← hg] at h1; exact_mod_cast h1
  have h6n : g.num ≤ 6 := by rw [← hg] at h6; exact_mod_cast h6
  have hlt : g.num.toNat < gearRatios.length := by
    simp only [gearRatios, List.length]; omega
  have hget : gearRatios.get? g.num.toNat = some (gearRatios.get ⟨g.num.toNat, hlt⟩) :=
    List.get?_eq_get hlt
  refine ⟨gearRatios.get ⟨g.num.toNat, hlt⟩, ?_, gearRatios_get?_nonneg _ _ hget⟩
  unfold gearLookup
  rw [if_pos ⟨hden, by omega⟩]
  exact hget

theorem validGear_setGearState (n : ℤ) (s : VirtualCarSimulator) :
    validGear (setGearState (n : ℚ) s) := by
  have hcast : clipQ ((n : ℚ)) 1 6 = ((min (max n 1) 6 : ℤ) : ℚ) := by
    unfold clipQ
    push_cast
    rfl
  refine ⟨?_, ?_, ?_⟩
  · show (clipQ ((n : ℚ)) 1 6).den = 1
    rw [hcast]
    exact Rat.den_intCast _
  · exact le_clipQ _ _ _ (by norm_num)
  · exact clipQ_le_right _ _ _

theorem validGear_setThrottleState (t : ℚ) (s : VirtualCarSimulator)
    (h : validGear s) : validGear (setThrottleState t s) := h

/-- Claim C2 (amended): from the freshly constructed model, a single call
`set_throttle(50)` leaves the RPM channel's pre-noise true value equal to
1050 (the step target is `800 + 50*50 = 3300`, and the value moves 10% of
the way from 800 toward it: `800 + 2500*0.1 = 1050`). -/
theorem c2_rpm_after_throttle50 :
    (set_throttle 50 initState).map (fun s => s.rpm.value) = some 1050 := by
  rw [set_throttle50_initState]
  norm_num [postThrottle50]

/-- Counterexample to claim C2 as stated: after `set_throttle(50)` from the
fresh model the RPM true value is not 825. -/
theorem c2_counterexample :
    ¬ ((set_throttle 50 initState).map (fun s => s.rpm.value) = some 825) := by
  rw [set_throttle50_initState]
  norm_num [postThrottle50]

/-- Claim C3 (amended): for an integer gear input `g`, the stored gear
after `set_gear(g)` is `clamp(round(g), 1, 6)` (for integers rounding is
the identity, so this equals `clamp(g, 1, 6)`, which is what line 62
actually stores; for non-integer inputs the stored gear is the unrounded
clamp, see the counterexample). -/
theorem c3_stored_gear_for_integer_input (g : ℚ) (s : VirtualCarSimulator)
    (h : g.den = 1) :
    (setGearState g s).gear = clipQ ((round g : ℤ) : ℚ) 1 6 := by
  have hg : (g.num : ℚ) = g := (Rat.den_eq_one_iff g).mp h
  show clipQ g 1 6 = clipQ ((round g : ℤ) : ℚ) 1 6
  rw [← hg, round_intCast]

theorem c3_witness : (setGearState 9 initState).gear = clipQ ((round (9 : ℚ) : ℤ) : ℚ) 1 6 :=
  c3_stored_gear_for_integer_input 9 initState (by norm_num)

/-- Counterexample to claim C3 as stated: `set_gear(2.7)` stores gear 2.7
(`np.clip` does not round), not `clamp(round(2.7), 1, 6) = 3`. -/
theorem c3_counterexample :
    ¬ ((setGearState (27/10) initState).gear = clipQ ((round ((27 : ℚ)/10) : ℤ) : ℚ) 1 6) := by
  have hr : round ((27 : ℚ)/10) = 3 := by
    rw [round_eq]
    norm_num
  rw [hr]
  show ¬ (clipQ (27/10) 1 6 = clipQ ((3 : ℤ) : ℚ) 1 6)
  norm_num [clipQ]

/-- Claim C4 (amended): `set_throttle` completes without raising for every
numeric input, and `set_gear` completes without raising for every integer
input, both from any state whose stored gear is a valid integer in 1..6;
for a non-integer gear input the gear-ratio list lookup raises (see the
counterexample). -/
theorem c4_setters_succeed (s : VirtualCarSimulator) (t : ℚ) (n : ℤ)
    (h : validGear s) :
    (set_throttle t s).isSome = true ∧ (set_gear (n : ℚ) s).isSome = true := by
  obtain ⟨hden, h1, h6⟩ := h
  constructor
  · obtain ⟨r, hr, -⟩ := gearLookup_of_validGear s.gear hden h1 h6
    have : gearLookup (setThrottleState t s).gear = some r := hr
    simp [set_throttle, updateSensors, this]
  · obtain ⟨hden2, h12, h62⟩ := validGear_setGearState n s
    obtain ⟨r, hr, -⟩ := gearLookup_of_validGear _ hden2 h12 h62
    simp [set_gear, updateSensors, hr]

theorem c4_witness :
    (set_throttle 123456 initState).isSome = true ∧
      (set_gear ((-5 : ℤ) : ℚ) initState).isSome = true :=
  c4_setters_succeed initState 123456 (-5) (by norm_num [validGear, initState])

/-- Counterexample to claim C4 as stated: the numeric input 2.5 to
`set_gear` makes the recomputation pass raise at the gear-ratio lookup
(a non-integer cannot index the `gear_ratios` list). -/
theorem c4_counterexample : set_gear ((5 : ℚ)/2) initState = none := by
  norm_num [set_gear, setGearState, updateSensors, gearLookup, clipQ, initState]

/-- Claim C9: `read()` on a channel and `read_all()` on the model leave all
stored state unchanged: the channel's value, bounds and noise level, and
the model's sensors, throttle, gear and mileage are identical before and
after the call (the methods contain no assignment; noise is read-time
jitter only). -/
theorem c9_reads_leave_state_unchanged (sen : SimulatedSensor) (n : ℚ)
    (s : VirtualCarSimulator) (ν : String → ℚ) :
    ((sen.readS n).1.value = sen.value ∧ (sen.readS n).1.min_value = sen.min_value ∧
      (sen.readS n).1.max_value = sen.max_value ∧
      (sen.readS n).1.noise_level = sen.noise_level) ∧
    (read_all_sensors s ν).1 = s ∧ (read_all_sensors s ν).1.throttle = s.throttle ∧
      (read_all_sensors s ν).1.gear = s.gear ∧
      (read_all_sensors s ν).1.mileage = s.mileage :=
  ⟨⟨rfl, rfl, rfl, rfl⟩, rfl, rfl, rfl, rfl⟩

theorem updateWith_gear (s : VirtualCarSimulator) (r : ℚ) :
    (updateWith s r).gear = s.gear := rfl

theorem updateWith_throttle (s : VirtualCarSimulator) (r : ℚ) :
    (updateWith s r).throttle = s.throttle := rfl

theorem updateWith_rpm_value (s : VirtualCarSimulator) (r : ℚ) :
    (updateWith s r).rpm.value =
      s.rpm.value + (800 + s.throttle * 50 - s.rpm.value) * (1/10) := rfl

theorem updateWith_rpm_bounds (s : VirtualCarSimulator) (r : ℚ) :
    (updateWith s r).rpm.min_value = s.rpm.min_value ∧
      (updateWith s r).rpm.max_value = s.rpm.max_value := ⟨rfl, rfl⟩

theorem updateWith_speed_value (s : VirtualCarSimulator) (r : ℚ) :
    (updateWith s r).speed.value = (updateWith s r).rpm.value * r / 60 := rfl

theorem updateWith_mileage (s : VirtualCarSimulator) (r : ℚ) :
    (updateWith s r).mileage =
      if 0 < (updateWith s r).speed.value then
        s.mileage + (updateWith s r).speed.value / 3600
      else s.mileage := rfl

theorem gearLookup_nonneg (g r : ℚ) (h : gearLookup g = some r) : 0 ≤ r := by
  unfold gearLookup at h
  split at h
  · exact gearRatios_get?_nonneg _ _ h
  · cases h

theorem updateSensors_eq_some (s t : VirtualCarSimulator)
    (h : updateSensors s = some t) :
    ∃ r, gearLookup s.gear = some r ∧ t = updateWith s r := by
  unfold updateSensors at h
  cases hgl : gearLookup s.gear with
  | none => rw [hgl] at h; cases h
  | some r => rw [hgl] at h; exact ⟨r, rfl, (Option.some.inj h).symm⟩

theorem updateSensors_mileage (s t : VirtualCarSimulator)
    (h : updateSensors s = some t) :
    s.mileage ≤ t.mileage ∧ (0 < t.speed.value → s.mileage < t.mileage) := by
  obtain ⟨r, -, rfl⟩ := updateSensors_eq_some s t h
  rw [updateWith_mileage]
  by_cases hsp : 0 < (updateWith s r).speed.value
  · rw [if_pos hsp]
    have : 0 < (updateWith s r).speed.value / 3600 := by positivity
    constructor <;> intros <;> linarith
  · rw [if_neg hsp]
    exact ⟨le_rfl, fun h0 => absurd h0 hsp⟩

theorem applyCmd_mileage (c : Cmd) (s t : VirtualCarSimulator)
    (h : applyCmd c s = some t) :
    s.mileage ≤ t.mileage ∧ (0 < t.speed.value → s.mileage < t.mileage) := by
  cases c with
  | throttle tv => exact updateSensors_mileage (setThrottleState tv s) t h
  | gear gv => exact updateSensors_mileage (setGearState gv s) t h

theorem applySeq_mileage_le (cmds : List Cmd) :
    ∀ s t : VirtualCarSimulator, applySeq cmds s = some t → s.mileage ≤ t.mileage := by
  induction cmds with
  | nil => intro s t h; cases h; exact le_rfl
  | cons c cs ih =>
      intro s t h
      simp only [applySeq] at h
      cases hc : applyCmd c s with
      | none => rw [hc] at h; cases h
      | some u =>
          rw [hc] at h
          exact le_trans (applyCmd_mileage c s u hc).1 (ih u t h)

/-- Claim C6: across any sequence of ticks the cumulative mileage is
non-decreasing, and it strictly increases on every tick at which the
recomputed speed true value is positive. -/
theorem c6_mileage_monotone :
    (∀ (cmds : List Cmd) (s t : VirtualCarSimulator),
        applySeq cmds s = some t → s.mileage ≤ t.mileage) ∧
    (∀ (c : Cmd) (s t : VirtualCarSimulator), applyCmd c s = some t →
        0 < t.speed.value → s.mileage < t.mileage) :=
  ⟨applySeq_mileage_le, fun c s t h h0 => (applyCmd_mileage c s t h).2 h0⟩

theorem c6_witness :
    initState.mileage ≤ postThrottle50.mileage ∧
      initState.mileage < postThrottle50.mileage := by
  have h2 : applyCmd (Cmd.throttle 50) initState = some postThrottle50 := by
    simp only [applyCmd]
    exact set_throttle50_initState
  have h1 : applySeq [Cmd.throttle 50] initState = some postThrottle50 := by
    simp only [applySeq, h2, Option.bind]
  exact ⟨c6_mileage_monotone.1 [Cmd.throttle 50] initState postThrottle50 h1,
    c6_mileage_monotone.2 (Cmd.throttle 50) initState postThrottle50 h2
      (by norm_num [postThrottle50])⟩

theorem updateSensors_inv (s t : VirtualCarSimulator) (h : updateSensors s = some t)
    (h800 : 800 ≤ s.rpm.value) (h5800 : s.rpm.value ≤ 5800)
    (ht0 : 0 ≤ s.throttle) (ht100 : s.throttle ≤ 100) : InvC10 t := by
  obtain ⟨r, hgl, rfl⟩ := updateSensors_eq_some s t h
  have hr : 0 ≤ r := gearLookup_nonneg _ _ hgl
  have hrpm : (updateWith s r).rpm.value =
      s.rpm.value + (800 + s.throttle * 50 - s.rpm.value) * (1/10) :=
    updateWith_rpm_value s r
  refine ⟨?_, ?_, ht0, ht100, ?_⟩
  · rw [hrpm]; linarith
  · rw [hrpm]; linarith
  · rw [updateWith_speed_value]
    apply div_nonneg _ (by norm_num)
    apply mul_nonneg _ hr
    rw [hrpm]; linarith

theorem applyCmd_inv (c : Cmd) (s t : VirtualCarSimulator)
    (h : applyCmd c s = some t) (hs : InvC10 s) : InvC10 t := by
  obtain ⟨h800, h5800, ht0, ht100, -⟩ := hs
  cases c with
  | throttle tv =>
      refine updateSensors_inv (setThrottleState tv s) t h h800 h5800 ?_ ?_
      · exact le_clipQ _ _ _ (by norm_num)
      · exact clipQ_le_right _ _ _
  | gear gv => exact updateSensors_inv (setGearState gv s) t h h800 h5800 ht0 ht100

theorem applySeq_inv (cmds : List Cmd) :
    ∀ s t : VirtualCarSimulator, applySeq cmds s = some t → InvC10 s → InvC10 t := by
  induction cmds with
  | nil => intro s t h hs; cases h; exact hs
  | cons c cs ih =>
      intro s t h hs
      simp only [applySeq] at h
      cases hc : applyCmd c s with
      | none => rw [hc] at h; cases h
      | some u =>
          rw [hc] at h
          exact ih u t h (applyCmd_inv c s u hc hs)

/-- Claim C10: starting from the freshly constructed model, after any
successful sequence of `set_throttle`/`set_gear` calls the RPM channel's
pre-noise true value lies within [800, 5800], and the recomputed speed
true value is non-negative. -/
theorem c10_reachable_rpm_speed_bounds (cmds : List Cmd) (t : VirtualCarSimulator)
    (h : applySeq cmds initState = some t) :
    800 ≤ t.rpm.value ∧ t.rpm.value ≤ 5800 ∧ 0 ≤ t.speed.value := by
  have hinit : InvC10 initState := by norm_num [InvC10, initState]
  obtain ⟨h1, h2, -, -, h5⟩ := applySeq_inv cmds initState t h hinit
  exact ⟨h1, h2, h5⟩

theorem c10_witness :
    800 ≤ initState.rpm.value ∧ initState.rpm.value ≤ 5800 ∧
      0 ≤ initState.speed.value :=
  c10_reachable_rpm_speed_bounds [] initState rfl

theorem updateSensors_rpm_in_bounds (s t : VirtualCarSimulator)
    (h : updateSensors s = some t)
    (hmin : s.rpm.min_value = 0) (hmax : s.rpm.max_value = 7000)
    (hb : sensorInBounds s.rpm) (ht0 : 0 ≤ s.throttle) (ht100 : s.throttle ≤ 100) :
    sensorInBounds t.rpm := by
  obtain ⟨r, -, rfl⟩ := updateSensors_eq_some s t h
  obtain ⟨hb1, hb2⟩ := hb
  rw [hmin] at hb1
  rw [hmax] at hb2
  obtain ⟨hm1, hm2⟩ := updateWith_rpm_bounds s r
  constructor
  · rw [hm1, hmin, updateWith_rpm_value]; linarith
  · rw [hm2, hmax, updateWith_rpm_value]; linarith

/-- Claim C1 (amended): under throttle already in [0, 100], a mutation
keeps the RPM channel's stored pre-noise true value within its bounds
[0, 7000]; the same is not true of every channel — the SPEED channel's
stored true value can leave its bounds (see the counterexample), and only
the read path clamps readings back into bounds. -/
theorem c1_rpm_bounds_preserved (c : Cmd) (s t : VirtualCarSimulator)
    (hmin : s.rpm.min_value = 0) (hmax : s.rpm.max_value = 7000)
    (hb : sensorInBounds s.rpm) (ht0 : 0 ≤ s.throttle) (ht100 : s.throttle ≤ 100)
    (h : applyCmd c s = some t) : sensorInBounds t.rpm := by
  cases c with
  | throttle tv =>
      refine updateSensors_rpm_in_bounds (setThrottleState tv s) t h hmin hmax hb ?_ ?_
      · exact le_clipQ _ _ _ (by norm_num)
      · exact clipQ_le_right _ _ _
  | gear gv => exact updateSensors_rpm_in_bounds (setGearState gv s) t h hmin hmax hb ht0 ht100

theorem c1_witness : sensorInBounds postThrottle50.rpm :=
  c1_rpm_bounds_preserved (Cmd.throttle 50) initState postThrottle50 rfl rfl
    (by norm_num [sensorInBounds, initState]) (by norm_num [initState])
    (by norm_num [initState])
    (by simp only [applyCmd]; exact set_throttle50_initState)

/-- Counterexample to claim C1 as stated: from the in-bounds state
`c1state` (throttle 0 in [0,100], gear 1 in 1..6), the single mutation
`set_throttle(100)` stores a SPEED true value of 1463/6 km/h, which
exceeds the SPEED channel's max_value 200, so a mutation does not keep
every channel's stored true value within bounds. -/
theorem c1_counterexample :
    allInBounds c1state ∧ 0 ≤ c1state.throttle ∧ c1state.throttle ≤ 100 ∧
      1 ≤ c1state.gear ∧ c1state.gear ≤ 6 ∧ c1state.gear.den = 1 ∧
      (set_throttle 100 c1state).map (fun t => t.speed.value) = some (1463/6) ∧
      (set_throttle 100 c1state).map (fun t => t.speed.max_value) = some 200 ∧
      ¬ ((1463 : ℚ)/6 ≤ 200) := by
  refine ⟨?_, ?_, ?_, ?_, ?_, ?_, ?_, ?_, ?_⟩
  · norm_num [allInBounds, sensorInBounds, c1state, initState]
  · norm_num [c1state, initState]
  · norm_num [c1state, initState]
  · norm_num [c1state, initState]
  · norm_num [c1state, initState]
  · norm_num [c1state, initState]
  · simp only [set_throttle, setThrottleState, updateSensors, gearLookup, gearRatios,
      c1state, initState]
    norm_num
    simp [updateWith, clipQ]
    norm_num
  · simp only [set_throttle, setThrottleState, updateSensors, gearLookup, gearRatios,
      c1state, initState]
    norm_num
    rfl
  · norm_num

theorem proj_fields (s₁ s₂ : VirtualCarSimulator) (h : proj s₁ = proj s₂) :
    s₁.rpm.value = s₂.rpm.value ∧ s₁.speed.value = s₂.speed.value ∧
    s₁.coolant_temp.value = s₂.coolant_temp.value ∧
    s₁.engine_load.value = s₂.engine_load.value ∧
    s₁.throttle_pos.value = s₂.throttle_pos.value ∧
    s₁.intake_temp.value = s₂.intake_temp.value ∧
    s₁.maf.value = s₂.maf.value ∧ s₁.fuel_rate.value = s₂.fuel_rate.value ∧
    s₁.oil_temp.value = s₂.oil_temp.value ∧
    s₁.oil_pressure.value = s₂.oil_pressure.value ∧
    s₁.throttle = s₂.throttle ∧ s₁.gear = s₂.gear ∧ s₁.mileage = s₂.mileage :=
  ⟨congrArg CoreProj.rpmV h, congrArg CoreProj.speedV h, congrArg CoreProj.coolantV h,
   congrArg CoreProj.loadV h, congrArg CoreProj.throttlePosV h,
   congrArg CoreProj.intakeV h, congrArg CoreProj.mafV h, congrArg CoreProj.fuelV h,
   congrArg CoreProj.oilTempV h, congrArg CoreProj.oilPressureV h,
   congrArg CoreProj.thr h, congrArg CoreProj.gr h, congrArg CoreProj.mil h⟩

theorem updateSensors_proj_congr (s₁ s₂ : VirtualCarSimulator)
    (h : proj s₁ = proj s₂) :
    (updateSensors s₁).map proj = (updateSensors s₂).map proj := by
  obtain ⟨h1, h2, h3, h4, h5, h6, h7, h8, h9, h10, h11, h12, h13⟩ := proj_fields s₁ s₂ h
  unfold updateSensors
  rw [h12]
  cases gearLookup s₂.gear with
  | none => rfl
  | some r =>
      simp only [Option.map_some']
      congr 1
      simp only [proj, updateWith]
      simp only [h1, h2, h3, h4, h5, h6, h7, h8, h9, h10, h11, h12, h13]

theorem applyCmd_proj_congr (c : Cmd) (s₁ s₂ : VirtualCarSimulator)
    (h : proj s₁ = proj s₂) :
    (applyCmd c s₁).map proj = (applyCmd c s₂).map proj := by
  obtain ⟨h1, h2, h3, h4, h5, h6, h7, h8, h9, h10, h11, h12, h13⟩ := proj_fields s₁ s₂ h
  cases c with
  | throttle tv =>
      apply updateSensors_proj_congr
      simp only [proj, setThrottleState]
      simp only [h1, h2, h3, h4, h5, h6, h7, h8, h9, h10, h11, h12, h13]
  | gear gv =>
      apply updateSensors_proj_congr
      simp only [proj, setGearState]
      simp only [h1, h2, h3, h4, h5, h6, h7, h8, h9, h10, h11, h12, h13]

/-- Claim C7: the recomputation pass is deterministic — two model
instances agreeing on all channel true values, throttle, gear and mileage
stay in agreement on those quantities under any common sequence of
`set_throttle`/`set_gear` calls (the pass reads no clock and draws no
randomness, so the embedding is a pure function of that projection). -/
theorem c7_deterministic_replay (cmds : List Cmd) :
    ∀ s₁ s₂ : VirtualCarSimulator, proj s₁ = proj s₂ →
      (applySeq cmds s₁).map proj = (applySeq cmds s₂).map proj := by
  induction cmds with
  | nil => intro s₁ s₂ h; simpa [applySeq] using h
  | cons c cs ih =>
      intro s₁ s₂ h
      have hc := applyCmd_proj_congr c s₁ s₂ h
      simp only [applySeq]
      cases hc1 : applyCmd c s₁ with
      | none =>
          rw [hc1] at hc
          cases hc2 : applyCmd c s₂ with
          | none => simp
          | some u₂ => rw [hc2] at hc; cases hc
      | some u₁ =>
          rw [hc1] at hc
          cases hc2 : applyCmd c s₂ with
          | none => rw [hc2] at hc; cases hc
          | some u₂ =>
              rw [hc2] at hc
              simp only [Option.map_some'] at hc
              show (applySeq cs u₁).map proj = (applySeq cs u₂).map proj
              exact ih u₁ u₂ (Option.some.inj hc)

theorem c7_witness :
    (applySeq [Cmd.gear 2] initState).map proj =
      (applySeq [Cmd.gear 2] c7mate).map proj :=
  c7_deterministic_replay [Cmd.gear 2] initState c7mate rfl

theorem set_throttle0_spec (s : VirtualCarSimulator) (h : validGear s) :
    ∃ t, set_throttle 0 s = some t ∧ t.gear = s.gear ∧
      t.rpm.value - 800 = (9/10) * (s.rpm.value - 800) := by
  obtain ⟨hden, h1, h6⟩ := h
  obtain ⟨r, hr, -⟩ := gearLookup_of_validGear s.gear hden h1 h6
  have hgl : gearLookup (setThrottleState 0 s).gear = some r := hr
  refine ⟨updateWith (setThrottleState 0 s) r, ?_, rfl, ?_⟩
  · simp [set_throttle, updateSensors, hgl]
  · rw [updateWith_rpm_value]
    have hc : clipQ 0 0 100 = (0 : ℚ) := by norm_num [clipQ]
    show s.rpm.value + (800 + clipQ 0 0 100 * 50 - s.rpm.value) * (1/10) - 800 = _
    rw [hc]
    ring

theorem iterT0_spec (n : ℕ) (s : VirtualCarSimulator) (h : validGear s) :
    ∃ t, iterT0 n s = some t ∧ t.gear = s.gear ∧
      t.rpm.value - 800 = (9/10)^n * (s.rpm.value - 800) := by
  induction n with
  | zero => exact ⟨s, rfl, rfl, by norm_num⟩
  | succ n ih =>
      obtain ⟨t, ht, hg, hf⟩ := ih
      have hvt : validGear t := by unfold validGear; rw [hg]; exact h
      obtain ⟨u, hu, hug, huf⟩ := set_throttle0_spec t hvt
      refine ⟨u, ?_, by rw [hug, hg], ?_⟩
      · show (iterT0 n s).bind (set_throttle 0) = some u
        rw [ht]
        exact hu
      · rw [huf, hf, pow_succ]
        ring

/-- Claim C8: from any state with a valid integer gear and RPM true value
above 800, repeated `set_throttle(0)` calls make the RPM true value
decrease strictly monotonically while staying above 800, and after some
finite number of calls the RPM true value is within 1 unit of 800. -/
theorem c8_throttle0_rpm_decay (s : VirtualCarSimulator) (hv : validGear s)
    (hr : 800 < s.rpm.value) :
    (∀ (n : ℕ) (t u : VirtualCarSimulator), iterT0 n s = some t →
        iterT0 (n+1) s = some u → 800 < u.rpm.value ∧ u.rpm.value < t.rpm.value) ∧
    (∃ (N : ℕ) (t : VirtualCarSimulator), iterT0 N s = some t ∧
        800 < t.rpm.value ∧ t.rpm.value ≤ 801) := by
  have hd : 0 < s.rpm.value - 800 := by linarith
  constructor
  · intro n t u ht hu
    obtain ⟨t', ht', -, htf⟩ := iterT0_spec n s hv
    obtain ⟨u', hu', -, huf⟩ := iterT0_spec (n+1) s hv
    rw [ht] at ht'
    rw [hu] at hu'
    obtain rfl : t = t' := Option.some.inj ht'
    obtain rfl : u = u' := Option.some.inj hu'
    have hpn : 0 < (9/10 : ℚ)^n * (s.rpm.value - 800) :=
      mul_pos (pow_pos (by norm_num) n) hd
    have hps : 0 < (9/10 : ℚ)^(n+1) * (s.rpm.value - 800) :=
      mul_pos (pow_pos (by norm_num) (n+1)) hd
    have hlt : (9/10 : ℚ)^(n+1) * (s.rpm.value - 800) <
        (9/10 : ℚ)^n * (s.rpm.value - 800) := by
      rw [pow_succ]
      nlinarith [hpn]
    constructor
    · linarith
    · linarith
  · obtain ⟨N, hN⟩ := exists_pow_lt_of_lt_one
      (x := 1 / (s.rpm.value - 800)) (y := (9/10 : ℚ))
      (by positivity) (by norm_num)
    obtain ⟨t, ht, -, hf⟩ := iterT0_spec N s hv
    have hlt1 : (9/10 : ℚ)^N * (s.rpm.value - 800) < 1 := by
      rw [← lt_div_iff₀ hd]
      exact hN
    have hpn : 0 < (9/10 : ℚ)^N * (s.rpm.value - 800) :=
      mul_pos (pow_pos (by norm_num) N) hd
    exact ⟨N, t, ht, by linarith, by linarith⟩

theorem c8_witness :
    (∀ (n : ℕ) (t u : VirtualCarSimulator), iterT0 n postThrottle50 = some t →
        iterT0 (n+1) postThrottle50 = some u →
        800 < u.rpm.value ∧ u.rpm.value < t.rpm.value) ∧
    (∃ (N : ℕ) (t : VirtualCarSimulator), iterT0 N postThrottle50 = some t ∧
        800 < t.rpm.value ∧ t.rpm.value ≤ 801) :=
  c8_throttle0_rpm_decay postThrottle50
    (by norm_num [validGear, postThrottle50]) (by norm_num [postThrottle50])

theorem le_pyRound (m : ℤ) (x : ℚ) (h : (m : ℚ) ≤ x) : m ≤ pyRound x := by
  unfold pyRound
  split_ifs with htie
  · have habs := abs_le.mp (abs_sub_round (x/2))
    have hne : x ≠ (m : ℚ) := by
      intro he
      rw [he, Int.fract_intCast] at htie
      norm_num at htie
    have hmx : (m : ℚ) < x := lt_of_le_of_ne h (Ne.symm hne)
    have hq : (m : ℚ) < 2 * (round (x/2) : ℚ) + 1 := by linarith [habs.2]
    have hz : m < 2 * round (x/2) + 1 := by exact_mod_cast hq
    omega
  · have habs := abs_le.mp (abs_sub_round x)
    have hq : (m : ℚ) < (round x : ℚ) + 1 := by linarith [habs.2]
    have hz : m < round x + 1 := by exact_mod_cast hq
    omega

theorem pyRound_le (M : ℤ) (x : ℚ) (h : x ≤ (M : ℚ)) : pyRound x ≤ M := by
  unfold pyRound
  split_ifs with htie
  · have habs := abs_le.mp (abs_sub_round (x/2))
    have hne : x ≠ (M : ℚ) := by
      intro he
      rw [he, Int.fract_intCast] at htie
      norm_num at htie
    have hmx : x < (M : ℚ) := lt_of_le_of_ne h hne
    have hq : 2 * (round (x/2) : ℚ) < (M : ℚ) + 1 := by linarith [habs.1]
    have hz : 2 * round (x/2) < M + 1 := by exact_mod_cast hq
    omega
  · have habs := abs_le.mp (abs_sub_round x)
    have hq : (round x : ℚ) < (M : ℚ) + 1 := by linarith [habs.1]
    have hz : round x < M + 1 := by exact_mod_cast hq
    omega

theorem le_round2 (lo x : ℚ) (hlo : IsCenti lo) (h : lo ≤ x) : lo ≤ round2 x := by
  have hnum : ((100 * lo).num : ℚ) = 100 * lo := (Rat.den_eq_one_iff _).mp hlo
  have h1 : ((100 * lo).num : ℚ) ≤ 100 * x := by rw [hnum]; linarith
  have h2 : (100 * lo).num ≤ pyRound (100 * x) := le_pyRound _ _ h1
  unfold round2
  rw [le_div_iff₀ (by norm_num : (0 : ℚ) < 100)]
  calc lo * 100 = ((100 * lo).num : ℚ) := by rw [hnum]; ring
    _ ≤ (pyRound (100 * x) : ℚ) := by exact_mod_cast h2

theorem round2_le (hi x : ℚ) (hhi : IsCenti hi) (h : x ≤ hi) : round2 x ≤ hi := by
  have hnum : ((100 * hi).num : ℚ) = 100 * hi := (Rat.den_eq_one_iff _).mp hhi
  have h1 : 100 * x ≤ ((100 * hi).num : ℚ) := by rw [hnum]; linarith
  have h2 : pyRound (100 * x) ≤ (100 * hi).num := pyRound_le _ _ h1
  unfold round2
  rw [div_le_iff₀ (by norm_num : (0 : ℚ) < 100)]
  calc (pyRound (100 * x) : ℚ) ≤ ((100 * hi).num : ℚ) := by exact_mod_cast h2
    _ = hi * 100 := by rw [hnum]; ring

/-- Claim C5: for a channel whose bounds are exactly representable with 2
decimals (true of all ten channels, whose bounds are integers) and any
noise perturbation within [-noise_level, +noise_level], the value of the
Reading returned by `read()` lies within [min_value, max_value] inclusive
and equals the true value plus the perturbation, clamped to the bounds and
rounded to 2 decimal places. -/
theorem c5_read_value_in_bounds (sen : SimulatedSensor) (noise : ℚ)
    (hmin : IsCenti sen.min_value) (hmax : IsCenti sen.max_value)
    (hle : sen.min_value ≤ sen.max_value)
    (_noise_lo : -sen.noise_level ≤ noise) (_noise_hi : noise ≤ sen.noise_level) :
    sen.min_value ≤ (sen.read noise).value ∧
      (sen.read noise).value ≤ sen.max_value ∧
      (sen.read noise).value =
        round2 (clipQ (sen.value + noise) sen.min_value sen.max_value) := by
  have hlo : sen.min_value ≤ clipQ (sen.value + noise) sen.min_value sen.max_value :=
    le_clipQ _ _ _ hle
  have hhi : clipQ (sen.value + noise) sen.min_value sen.max_value ≤ sen.max_value :=
    clipQ_le_right _ _ _
  exact ⟨le_round2 _ _ hmin hlo, round2_le _ _ hmax hhi, rfl⟩

theorem c5_witness :
    initState.rpm.min_value ≤ (initState.rpm.read (1/3)).value ∧
      (initState.rpm.read (1/3)).value ≤ initState.rpm.max_value ∧
      (initState.rpm.read (1/3)).value =
        round2 (clipQ (initState.rpm.value + 1/3) initState.rpm.min_value
          initState.rpm.max_value) :=
  c5_read_value_in_bounds initState.rpm (1/3)
    (by norm_num [IsCenti, initState]) (by norm_num [IsCenti, initState])
    (by norm_num [initState]) (by norm_num [initState]) (by norm_num [initState])
